import Mathlib

/-!
Shallow embedding of the ApplyPilot job orchestrator
(`server/app/services/run_jobs.py` and the handlers of
`server/app/server.py`) and proofs about its specified behaviour.

Conventions:
* Python `None`-able values become `Option`.
* The side effects that matter to the properties (store upserts, watchdog
  arming/cancelling, notifier pings, session teardown) are recorded as an
  explicit event trace, in the order the source performs them.
* Exceptions are explicit: a step that can raise returns `Except` or an
  outcome with an `exn` constructor.  An exception swallowed by a
  `try/except` in the source is swallowed in the embedding too.
* The process-wide `FAILURE_ACTION` configuration, the wall-clock
  timestamp and the behaviour of the external collaborators
  (`upsert_job`, UI-session calls) enter as an environment record.
-/

-- ----------------------------------------------------------------------
-- Config constants (run_jobs.py lines 18-20)
-- ----------------------------------------------------------------------

def DEFAULT_JOB_TIMEOUT : Nat := 5 * 60

def MAX_SUBSEQUENT_RUN_JOBS_FAILURE_ALLOWED : Nat := 3

def MAX_SUBSEQUENT_EXECUTION_FAILURES_ALLOWED : Nat := 5

-- ----------------------------------------------------------------------
-- Enums (run_jobs.py lines 39-57)
-- ----------------------------------------------------------------------

inductive ApplicationStatus where
  | INIT
  | IN_PROGRESS
  | JOB_EXPIRED
  | APPLIED
deriving DecidableEq, Repr

/-- The `.value` payload of each `ApplicationStatus` member. -/
def ApplicationStatus.value : ApplicationStatus → String
  | .INIT => "init"
  | .IN_PROGRESS => "in_progress"
  | .JOB_EXPIRED => "job_expired"
  | .APPLIED => "applied"

inductive ExecutionResult where
  | PENDING
  | PROCESSING
  | JOB_EXPIRED
  | UNSUPPORTED_PLATFORM
  | FAILED
  | APPLIED
deriving DecidableEq, Repr

/-- The `.value` payload of each `ExecutionResult` member. -/
def ExecutionResult.value : ExecutionResult → String
  | .PENDING => "pending"
  | .PROCESSING => "processing"
  | .JOB_EXPIRED => "job_expired"
  | .UNSUPPORTED_PLATFORM => "unsupported_platform"
  | .FAILED => "failed"
  | .APPLIED => "applied"

/-- Python `str(result)` on an enum member, as used in the
`invalid_execution_result` error message. -/
def ExecutionResult.pyStr : ExecutionResult → String
  | .PENDING => "ExecutionResult.PENDING"
  | .PROCESSING => "ExecutionResult.PROCESSING"
  | .JOB_EXPIRED => "ExecutionResult.JOB_EXPIRED"
  | .UNSUPPORTED_PLATFORM => "ExecutionResult.UNSUPPORTED_PLATFORM"
  | .FAILED => "ExecutionResult.FAILED"
  | .APPLIED => "ExecutionResult.APPLIED"

inductive FailureAction where
  | CONTINUE
  | ALERT_STOP
  | SILENT_STOP
deriving DecidableEq, Repr

/-- Python attribute lookup `ApplicationStatus.<name>`.  The enum class has
exactly the four members above; looking up any other attribute name (in
particular `FAILED`, which the timeout callback at run_jobs.py line 147
uses) raises `AttributeError`. -/
def applicationStatusAttr (name : String) : Except String ApplicationStatus :=
  if name = "INIT" then .ok .INIT
  else if name = "IN_PROGRESS" then .ok .IN_PROGRESS
  else if name = "JOB_EXPIRED" then .ok .JOB_EXPIRED
  else if name = "APPLIED" then .ok .APPLIED
  else .error ("AttributeError: ApplicationStatus has no attribute " ++ name)

-- ----------------------------------------------------------------------
-- Platform timeouts (run_jobs.py lines 22-31, 66-76)
-- ----------------------------------------------------------------------

/-- Split a character list at the first occurrence of the separator
substring, returning the parts before and after it. -/
def splitOnFirstSub (sep : List Char) : List Char → Option (List Char × List Char)
  | [] => none
  | c :: rest =>
    if sep.isPrefixOf (c :: rest) then some ([], (c :: rest).drop sep.length)
    else
      match splitOnFirstSub sep rest with
      | some (a, b) => some (c :: a, b)
      | none => none

/-- Split a character list on every occurrence of a separator character. -/
def splitChar (sep : Char) : List Char → List (List Char)
  | [] => [[]]
  | c :: rest =>
    let r := splitChar sep rest
    if c = sep then [] :: r
    else
      match r with
      | h :: t => (c :: h) :: t
      | [] => [[c]]

/-- ASCII lower-casing of one character. -/
def lowerChar (c : Char) : Char :=
  if 'A' ≤ c && c ≤ 'Z' then Char.ofNat (c.toNat + 32) else c

/-- `suffix` is a suffix of `h` — the effect of an end-anchored
`re.search(..., h)` whose pattern is a literal (dots escaped). -/
def endsWithSub (suffix h : String) : Bool :=
  suffix.data.isSuffixOf h.data

/-- `re.search(r"\.myworkday(jobs|site)\.com$", h, re.I)` on an
already-lowercased hostname. -/
def matches_workday (h : String) : Bool :=
  endsWithSub ".myworkdayjobs.com" h || endsWithSub ".myworkdaysite.com" h

/-- `re.search(r"\.greenhouse\.io$", h, re.I)` on a lowercased hostname. -/
def matches_greenhouse (h : String) : Bool :=
  endsWithSub ".greenhouse.io" h

/-- `re.search(r"\.lever\.co$", h, re.I)` on a lowercased hostname. -/
def matches_lever (h : String) : Bool :=
  endsWithSub ".lever.co" h

/-- The ordered pattern → duration table `PLATFORM_TIMEOUTS`. -/
def PLATFORM_TIMEOUTS : List ((String → Bool) × Nat) :=
  [(matches_workday, 8 * 60),
   (matches_greenhouse, 8 * 60),
   (matches_lever, 6 * 60)]

/-- `urllib.parse.urlparse(url).hostname or ""` for the scheme://host URLs
the orchestrator sees: take the authority between `://` and the first
`/`, `?` or `#`, drop userinfo and port, lowercase.  A URL without `://`
has no hostname (Python returns `None`, the source coerces to `""`). -/
def urlparse_hostname (url : String) : String :=
  match splitOnFirstSub "://".data url.data with
  | some (_, after) =>
    let netloc := (splitChar '/' after).headD []
    let netloc := (splitChar '?' netloc).headD []
    let netloc := (splitChar '#' netloc).headD []
    let host := (splitChar '@' netloc).getLastD []
    let host := (splitChar ':' host).headD []
    ⟨host.map lowerChar⟩
  | none => ""

/-- `resolve_job_timeout` (run_jobs.py lines 66-76).  The source declares
`apply_url: str` but is also called with `None`; both `None` and `""` are
falsy and yield the default. -/
def resolve_job_timeout (apply_url : Option String) : Nat :=
  match apply_url with
  | none => DEFAULT_JOB_TIMEOUT
  | some u =>
    if u.isEmpty then DEFAULT_JOB_TIMEOUT
    else
      let hostname := urlparse_hostname u
      match PLATFORM_TIMEOUTS.find? (fun pt => pt.1 hostname) with
      | some pt => pt.2
      | none => DEFAULT_JOB_TIMEOUT

-- ----------------------------------------------------------------------
-- update_database (run_jobs.py lines 91-123)
-- ----------------------------------------------------------------------

/-- The arguments of one `upsert_job` call (the store-facing write). -/
structure UpsertCall where
  job_key : String
  fingerprint : Option String
  force_update : List (String × String)
  soft_update : Option (List (String × String))
  source : Option String
deriving DecidableEq, Repr

/-- `update_database` (run_jobs.py lines 91-123): build the force-update
payload in source order (`applicationStatus`, then `applied_at` when the
status is `APPLIED`, then `executionResult`) and hand it to `upsert_job`.
`now` is the formatted UTC timestamp `datetime.now(timezone.utc)...`.
An empty payload raises `ValueError`.  (`_validate_enum` on a value taken
from an enum member always passes and is omitted.)  The returned
`UpsertCall` describes the store write; whether the remote upsert itself
raises is decided by the caller's environment. -/
def update_database (now : String) (job_key : String) (fingerprint : Option String)
    (application_status : Option ApplicationStatus) (execution_result : Option ExecutionResult)
    (soft_update_payload : Option (List (String × String))) (source : Option String) :
    Except String UpsertCall :=
  let p1 : List (String × String) :=
    match application_status with
    | some s =>
      [("applicationStatus", s.value)] ++
        (if s = ApplicationStatus.APPLIED then [("applied_at", now)] else [])
    | none => []
  let p2 : List (String × String) :=
    match execution_result with
    | some r => [("executionResult", r.value)]
    | none => []
  let force_update_payload := p1 ++ p2
  if force_update_payload.isEmpty then
    .error "ValueError: Nothing to update. Provide at least one of status or result."
  else
    .ok { job_key := job_key, fingerprint := fingerprint,
          force_update := force_update_payload,
          soft_update := soft_update_payload, source := source }

-- ----------------------------------------------------------------------
-- Orchestrator state
-- ----------------------------------------------------------------------

/-- A job as the orchestrator sees it: `job["key"]` and
`job["data"].get("applyUrl")`. -/
structure Job where
  key : String
  applyUrl : Option String
deriving DecidableEq, Repr

/-- The in-memory run state of the `Jobs` orchestrator together with the
flags of the shared `automation_controller` that the orchestrator reads
and writes (`is_automation_active`, `chatgpt.is_session_already_open`,
`chatgpt.reset_occured`).  `execution_timer` is the armed watchdog
`(job_key, timeout)` or `none`. -/
structure JState where
  current_job : Option Job
  chain_enabled : Bool
  current_subsequent_execution_failure_count : Nat
  execution_timer : Option (String × Nat)
  is_automation_active : Bool
  chatgpt_is_session_already_open : Bool
  chatgpt_reset_occured : Bool
deriving DecidableEq, Repr

/-- Observable side effects, recorded in source order. -/
inductive Event where
  | fetch                                   -- fetch_and_lock_next_job call
  | cancelTimer                             -- an armed watchdog is cancelled
  | startTimer (key : String) (timeout : Nat)
  | dbWrite (u : UpsertCall)                -- a completed upsert_job
  | notify                                  -- breakpoint_notifier.notify_and_keep_playing
  | closeLlmSession
  | closeAutomationSession
  | gotoDesktop
  | broadcast (msg : String)                -- broadcast_sse
deriving DecidableEq, Repr

/-- The `{'success': ..., 'reason': ..., 'error': ...}` dictionaries the
orchestrator returns. -/
structure RetVal where
  success : Bool
  reason : String
  error : Option String := none
deriving DecidableEq, Repr

/-- `_cancel_execution_timeout` (run_jobs.py lines 164-167): cancel only
when a timer is armed; cancelling a non-existent timer is a no-op. -/
def cancel_execution_timeout (st : JState) : JState × List Event :=
  match st.execution_timer with
  | some _ => ({ st with execution_timer := none }, [Event.cancelTimer])
  | none => (st, [])

-- ----------------------------------------------------------------------
-- set_execution_result (run_jobs.py lines 236-363)
-- ----------------------------------------------------------------------

/-- How one `set_execution_result` call ends: a returned dictionary, the
tail call `return self.run_next_job()` that continues the chain, or an
exception propagating to the caller. -/
inductive SEROutcome where
  | ret (v : RetVal)
  | chain
  | exn (e : String)
deriving DecidableEq, Repr

structure SER where
  state : JState
  events : List Event
  outcome : SEROutcome
deriving DecidableEq, Repr

/-- Environment of one `set_execution_result` call: the process-wide
`FAILURE_ACTION` configuration, the UTC timestamp `update_database` would
stamp, the error the remote `upsert_job` raises (if any), and the error
the UI-phase collaborator calls (`close_llm_session` /
`goto_automation_desktop`, run_jobs.py lines 339-340) raise (if any) —
the latter lands in the outer `except` of the method. -/
structure SEREnv where
  fa : FailureAction
  now : String
  dbError : Option String := none
  uiError : Option String := none
deriving Repr

/-- The mapping of the reported result onto the persisted pair, embedded
from the sequential `if`s of run_jobs.py lines 296-303. -/
def resultMapping (result : ExecutionResult) :
    Option ExecutionResult × Option ApplicationStatus :=
  let er : Option ExecutionResult := none
  let as : Option ApplicationStatus := none
  let (er, as) := if result = .PENDING then (some .FAILED, as) else (er, as)
  let (er, as) := if result = .JOB_EXPIRED then (some .JOB_EXPIRED, some .JOB_EXPIRED) else (er, as)
  let (er, as) := if result = .UNSUPPORTED_PLATFORM then (some .UNSUPPORTED_PLATFORM, as) else (er, as)
  let (er, as) := if result = .FAILED then (some .FAILED, as) else (er, as)
  let (er, as) := if result = .APPLIED then (some .APPLIED, some .APPLIED) else (er, as)
  (er, as)

/-- The outer `except Exception` handler (run_jobs.py lines 357-363):
clear the active flag, notify only under `ALERT_STOP`, return the fatal
structured result. -/
def ser_fatal (env : SEREnv) (st : JState) (evs : List Event) (e : String) : SER :=
  let st := { st with is_automation_active := false }
  let evs := evs ++ (if env.fa = .ALERT_STOP then [Event.notify] else [])
  ⟨st, evs, .ret ⟨false, "fatal_error_setting_execution_result", some e⟩⟩

/-- The "Update UI" tail of the method (run_jobs.py lines 338-354), still
inside the outer `try`.  `close_llm_session` / `goto_automation_desktop`
may raise (`env.uiError`), which the outer handler catches.  In the
chained branch `close_automation_session` releases the execution session
(modelled as clearing the global active flag — the loop guard of
`run_next_job` relies on this). -/
def ser_update_ui (env : SEREnv) (st : JState) (evs : List Event)
    (is_orphan execution_failure_type : Bool) : SER :=
  match env.uiError with
  | some e => ser_fatal env st evs e
  | none =>
    let evs := evs ++ [Event.closeLlmSession, Event.gotoDesktop]
    if is_orphan then
      ⟨{ st with is_automation_active := false }, evs,
       .ret ⟨true, "oprhan_job_execution_complete", none⟩⟩
    else
      let evs := evs ++ [Event.closeAutomationSession]
      let st := { st with is_automation_active := false, current_job := none }
      if st.chain_enabled then
        let st :=
          if execution_failure_type then
            { st with current_subsequent_execution_failure_count :=
                st.current_subsequent_execution_failure_count + 1 }
          else
            { st with current_subsequent_execution_failure_count := 0 }
        ⟨st, evs, .chain⟩
      else
        ⟨st, evs, .ret ⟨true, "disabled_chain_ended_execution", none⟩⟩

/-- The body from the watchdog cancellation on (run_jobs.py lines
283-354): cancel the timer in non-orphan mode only, then the `try` block
with the result→store mapping, the persistence attempt and its
CONTINUE-vs-stop error branching, and the UI tail. -/
def ser_persist_and_continue (env : SEREnv) (st : JState) (result : ExecutionResult)
    (key : String) (fingerprint : Option String)
    (soft_data : Option (List (String × String))) (source : Option String)
    (is_orphan execution_failure_type : Bool) : SER :=
  let (st, evs) := if !is_orphan then cancel_execution_timeout st else (st, [])
  let (execution_result, application_status) := resultMapping result
  match execution_result with
  | some er =>
    match update_database env.now key fingerprint application_status (some er) soft_data source with
    | .error e => ser_fatal env st evs e   -- unreachable: payload is non-empty
    | .ok u =>
      match env.dbError with
      | none => ser_update_ui env st (evs ++ [Event.dbWrite u]) is_orphan execution_failure_type
      | some err =>
        -- upsert_job raised; inner except at run_jobs.py lines 308-321
        if env.fa = .CONTINUE then
          if st.current_subsequent_execution_failure_count >
              MAX_SUBSEQUENT_EXECUTION_FAILURES_ALLOWED then
            ⟨{ st with is_automation_active := false, current_job := none }, evs,
             .ret ⟨false, "database_updation_failure", some err⟩⟩
          else
            ser_update_ui env st evs is_orphan true
        else
          let st := { st with is_automation_active := false, current_job := none }
          let evs := evs ++ (if env.fa = .ALERT_STOP then [Event.notify] else [])
          ⟨st, evs, .ret ⟨false, "database_updation_failure", some err⟩⟩
  | none =>
    -- invalid ExecutionResult (run_jobs.py lines 323-336)
    let errMsg := "Error: " ++ result.pyStr ++ " is invalid execution result type enum."
    if env.fa = .CONTINUE then
      if st.current_subsequent_execution_failure_count >
          MAX_SUBSEQUENT_EXECUTION_FAILURES_ALLOWED then
        ⟨{ st with is_automation_active := false, current_job := none }, evs,
         .ret ⟨false, "invalid_execution_result", some errMsg⟩⟩
      else
        ser_update_ui env st evs is_orphan true
    else
      let st := { st with is_automation_active := false, current_job := none }
      let evs := evs ++ (if env.fa = .ALERT_STOP then [Event.notify] else [])
      ⟨st, evs, .ret ⟨false, "invalid_execution_result", some errMsg⟩⟩

/-- `Jobs.set_execution_result` (run_jobs.py lines 236-363).  The key
re-derivation `if self.chain_enabled: key = self.current_job["key"]`
happens before the `try` block: with an active chain and no current job it
raises `TypeError`, which propagates.  Then the orphan-PENDING no-op, the
PENDING-on-active-chain policy branch, and `ser_persist_and_continue`. -/
def set_execution_result (env : SEREnv) (st : JState) (result : ExecutionResult)
    (key : String) (fingerprint : Option String)
    (soft_data : Option (List (String × String))) (source : Option String) : SER :=
  if st.chain_enabled && st.current_job.isNone then
    ⟨st, [], .exn "TypeError: 'NoneType' object is not subscriptable"⟩
  else
    let key := if st.chain_enabled then
        (match st.current_job with | some j => j.key | none => key)
      else key
    let is_orphan := !st.chain_enabled
    if result = .PENDING && is_orphan then
      -- run_jobs.py lines 248-259
      ⟨{ st with chatgpt_is_session_already_open := false,
                 chatgpt_reset_occured := false,
                 is_automation_active := false }, [],
       .ret ⟨true, "orphan_pending_jobs_does_not_need_initialization", none⟩⟩
    else if !is_orphan && result = .PENDING then
      -- run_jobs.py lines 268-281
      if env.fa = .CONTINUE then
        if st.current_subsequent_execution_failure_count >
            MAX_SUBSEQUENT_EXECUTION_FAILURES_ALLOWED then
          ⟨{ st with is_automation_active := false, current_job := none }, [],
           .ret ⟨false, "pending_not_allowed_for_active_chain", none⟩⟩
        else
          ser_persist_and_continue env st result key fingerprint soft_data source is_orphan true
      else
        let st := { st with is_automation_active := false, current_job := none }
        let evs := if env.fa = .ALERT_STOP then [Event.notify] else []
        ⟨st, evs, .ret ⟨false, "pending_not_allowed_for_active_chain", none⟩⟩
    else
      ser_persist_and_continue env st result key fingerprint soft_data source is_orphan false

-- ----------------------------------------------------------------------
-- run_next_job (run_jobs.py lines 169-232) and the timeout callback
-- ----------------------------------------------------------------------

/-- How a `run_next_job` invocation ends.  `fuelOut` means the modelled
environment supplied fewer fetch/open answers than the loop consumed — the
theorems always supply enough. -/
inductive RNJOutcome where
  | ret (v : RetVal)
  | fuelOut
deriving DecidableEq, Repr

/-- Environment of a `run_next_job` invocation. -/
structure RNJEnv where
  fa : FailureAction
  now : String
  dbError : Option String := none
deriving Repr

/-- The `while True` loop of `run_next_job` (run_jobs.py lines 172-232).
`fetches` lists the successive answers of `fetch_and_lock_next_job`,
`opens` the successive answers of `open_automation_session`.  A successful
open marks the execution session active (the global flag the guard at
line 175 checks) — modelled from the spec's Execution Session boundary;
`close_automation_session` releases it again. -/
def run_next_job_loop (env : RNJEnv) :
    Nat → JState → List (Option Job) → List Bool → JState × List Event × RNJOutcome
  | _, st, [], _ =>
    if st.is_automation_active then
      (st, [], .ret ⟨false, "automation_already_running", none⟩)
    else (st, [], .fuelOut)
  | cnt, st, job? :: fetches, opens =>
    if st.is_automation_active then
      (st, [], .ret ⟨false, "automation_already_running", none⟩)
    else
      match job? with
      | none => (st, [Event.fetch], .ret ⟨true, "all_jobs_completed", none⟩)
      | some job =>
        let st := { st with current_job := some job }
        let apply_url := job.applyUrl
        let timeout := resolve_job_timeout apply_url
        -- _start_execution_timeout (run_jobs.py lines 136-162): cancel, then arm
        let (st, evsC) := cancel_execution_timeout st
        let st := { st with execution_timer := some (job.key, timeout) }
        let evs := Event.fetch :: evsC ++ [Event.startTimer job.key timeout]
        if (apply_url.getD "").isEmpty then
          -- no usable target (run_jobs.py lines 218-227)
          match env.fa with
          | .CONTINUE =>
            let st := { st with is_automation_active := false, current_job := none }
            let (st', evs', out) := run_next_job_loop env cnt st fetches opens
            (st', evs ++ evs', out)
          | .ALERT_STOP =>
            (st, evs ++ [Event.notify],
             .ret ⟨false, "job_without_applyurl_database_error", none⟩)
          | .SILENT_STOP =>
            (st, evs, .ret ⟨false, "job_without_applyurl_database_error", none⟩)
        else
          match opens with
          | [] => (st, evs, .fuelOut)
          | ok :: opens' =>
            if ok then
              let st := { st with is_automation_active := true, chain_enabled := true }
              (st, evs, .ret ⟨true, "started", none⟩)
            else
              -- open failed (run_jobs.py lines 197-216); best-effort FAILED write
              let evs := evs ++
                (match update_database env.now job.key none none (some .FAILED) none none,
                       env.dbError with
                 | .ok u, none => [Event.dbWrite u]
                 | _, _ => [])
              match env.fa with
              | .CONTINUE =>
                let cnt := cnt + 1
                if MAX_SUBSEQUENT_RUN_JOBS_FAILURE_ALLOWED ≤ cnt then
                  (st, evs,
                   .ret ⟨false, "faild_to_open_automation_session_with_3_retries", none⟩)
                else
                  let evs := evs ++ [Event.closeLlmSession, Event.closeAutomationSession]
                  let st := { st with is_automation_active := false, current_job := none }
                  let (st', evs', out) := run_next_job_loop env cnt st fetches opens'
                  (st', evs ++ evs', out)
              | .ALERT_STOP =>
                let st := { st with is_automation_active := false, current_job := none }
                (st, evs ++ [Event.notify],
                 .ret ⟨false, "faild_to_open_automation_session", none⟩)
              | .SILENT_STOP =>
                let st := { st with is_automation_active := false, current_job := none }
                (st, evs, .ret ⟨false, "faild_to_open_automation_session", none⟩)

/-- `Jobs.run_next_job`: the loop with its local failure counter at 0. -/
def run_next_job (env : RNJEnv) (st : JState)
    (fetches : List (Option Job)) (opens : List Bool) : JState × List Event × RNJOutcome :=
  run_next_job_loop env 0 st fetches opens

/-- `Jobs.start` (run_jobs.py lines 169-170): exactly `run_next_job`. -/
def start (env : RNJEnv) (st : JState)
    (fetches : List (Option Job)) (opens : List Bool) : JState × List Event × RNJOutcome :=
  run_next_job env st fetches opens

/-- The watchdog `on_timeout` callback (run_jobs.py lines 139-158).  The
`update_database` call passes `application_status=ApplicationStatus.FAILED`
(line 147): the attribute lookup is evaluated while building the call and
the whole attempt sits in a `try` whose `except` only prints.  Afterwards
the callback releases the LLM and execution sessions, clears
`current_job`, and — only if the chain is still enabled — calls
`run_next_job` (the returned `Bool` records that call). -/
def on_timeout (now : String) (dbError : Option String) (st : JState) (job_key : String) :
    JState × List Event × Bool :=
  let dbAttempt : Except String UpsertCall := do
    let app_status ← applicationStatusAttr "FAILED"
    let u ← update_database now job_key none (some app_status) (some .FAILED) none none
    match dbError with
    | some e => .error e
    | none => pure u
  let evs : List Event :=
    match dbAttempt with
    | .ok u => [Event.dbWrite u]
    | .error _ => []   -- swallowed: print only
  let evs := evs ++ [Event.closeLlmSession, Event.closeAutomationSession]
  let st := { st with is_automation_active := false, current_job := none }
  (st, evs, st.chain_enabled)

/-- The `/stop-run-jobs` handler (server.py lines 208-212): set
`chain_enabled` false, broadcast `jobs_stopped`, answer success. -/
def handle_stop_run_jobs (st : JState) : JState × List Event × Bool :=
  ({ st with chain_enabled := false }, [Event.broadcast "jobs_stopped"], true)

-- ----------------------------------------------------------------------
-- Derived notions used by the statements
-- ----------------------------------------------------------------------

/-- Scanning the trace left to right, no store write appears before the
first watchdog cancellation. -/
def everyWritePrecededByCancel : List Event → Bool
  | [] => true
  | .cancelTimer :: _ => true
  | .dbWrite _ :: _ => false
  | _ :: rest => everyWritePrecededByCancel rest

/-- The store writes recorded in a trace. -/
def storeWrites (evs : List Event) : List UpsertCall :=
  evs.filterMap (fun e => match e with | .dbWrite u => some u | _ => none)

/-- The force-update payload dictated by the §4.3 mapping table for a
persisted `(executionResult, applicationStatus)` pair. -/
def forcePayload (now : String) :
    Option ExecutionResult × Option ApplicationStatus → List (String × String)
  | (er, as) =>
    (match as with
     | some s => [("applicationStatus", s.value)] ++
         (if s = ApplicationStatus.APPLIED then [("applied_at", now)] else [])
     | none => []) ++
    (match er with
     | some r => [("executionResult", r.value)]
     | none => [])

-- ----------------------------------------------------------------------
-- Concrete fixtures used by closed statements
-- ----------------------------------------------------------------------

def sampleJob : Job := ⟨"a", some "https://acme.myworkdayjobs.com/j"⟩

def envConc : SEREnv := ⟨.CONTINUE, "2026-01-01T00:00:00.000Z", none, none⟩

def envRNJ : RNJEnv := ⟨.CONTINUE, "2026-01-01T00:00:00.000Z", none⟩

/-- A mid-chain state: job `a` claimed, watchdog armed, session active. -/
def chainState0 : JState := ⟨some sampleJob, true, 0, some ("a", 480), true, false, false⟩

/-- One finalization failure report: `PENDING` on the active chain. -/
def failStep (st : JState) : SER :=
  set_execution_result envConc st .PENDING "a" none none none

/-- The successful re-claim `run_next_job` performs after a tolerated
failure: one job fetched, session opened. -/
def reclaim (st : JState) : JState :=
  (run_next_job envRNJ st [some sampleJob] [true]).1

/-- State after `n` consecutive tolerated finalization failures (each
followed by the successful re-claim of the chain). -/
def consecutiveFailState : Nat → JState
  | 0 => chainState0
  | n + 1 => reclaim (failStep (consecutiveFailState n)).state

-- ----------------------------------------------------------------------
-- C8: the mutual-exclusion gate of start()/run_next_job()
-- ----------------------------------------------------------------------

/-- C8: whenever the global active-session flag is set, `start()` — which
is exactly `run_next_job()` — immediately returns
`{success:false, reason:'automation_already_running'}` with the state
unchanged and no side effect at all (in particular no
`fetch_and_lock_next_job` call), so a second lease is never taken. -/
theorem run_next_job_mutual_exclusion_gate (env : RNJEnv) (st : JState)
    (fetches : List (Option Job)) (opens : List Bool)
    (h : st.is_automation_active = true) :
    start env st fetches opens = run_next_job env st fetches opens ∧
    run_next_job env st fetches opens =
      (st, [], .ret ⟨false, "automation_already_running", none⟩) := by
  refine ⟨rfl, ?_⟩
  cases fetches <;> simp [run_next_job, run_next_job_loop, h]

theorem run_next_job_mutual_exclusion_gate_witness :
    (⟨none, false, 0, none, true, false, false⟩ : JState).is_automation_active = true ∧
    run_next_job envRNJ ⟨none, false, 0, none, true, false, false⟩ [some sampleJob] [true] =
      (⟨none, false, 0, none, true, false, false⟩, [],
       .ret ⟨false, "automation_already_running", none⟩) :=
  ⟨rfl, (run_next_job_mutual_exclusion_gate envRNJ _ [some sampleJob] [true] rfl).2⟩

-- ----------------------------------------------------------------------
-- C9: orphan PENDING is a store-untouching success
-- ----------------------------------------------------------------------

/-- C9: a `PENDING` report while `chain_enabled` is false resets the
transient automation flags (`chatgpt.is_session_already_open`,
`chatgpt.reset_occured`, `is_automation_active`), performs no side effect
— in particular no store write — and returns `{success:true}`. -/
theorem orphan_pending_no_store_write (env : SEREnv) (st : JState) (key : String)
    (fp : Option String) (sd : Option (List (String × String))) (src : Option String)
    (h : st.chain_enabled = false) :
    set_execution_result env st .PENDING key fp sd src =
      ⟨{ st with chatgpt_is_session_already_open := false,
                 chatgpt_reset_occured := false,
                 is_automation_active := false }, [],
       .ret ⟨true, "orphan_pending_jobs_does_not_need_initialization", none⟩⟩ ∧
    storeWrites (set_execution_result env st .PENDING key fp sd src).events = [] := by
  constructor <;> simp [set_execution_result, h, storeWrites]

theorem orphan_pending_no_store_write_witness :
    (⟨none, false, 3, none, true, true, true⟩ : JState).chain_enabled = false ∧
    set_execution_result envConc ⟨none, false, 3, none, true, true, true⟩ .PENDING "k" none none none =
      ⟨⟨none, false, 3, none, false, false, false⟩, [],
       .ret ⟨true, "orphan_pending_jobs_does_not_need_initialization", none⟩⟩ :=
  ⟨rfl, (orphan_pending_no_store_write envConc _ "k" none none none rfl).1⟩

-- ----------------------------------------------------------------------
-- C10: applied_at accompanies exactly the APPLIED status
-- ----------------------------------------------------------------------

/-- C10: `update_database` with `application_status = APPLIED` sends a
force-update payload carrying `applicationStatus = "applied"` plus an
extra `applied_at` field holding the UTC timestamp; no other status value
produces an `applied_at` field. -/
theorem update_database_applied_at_iff_applied (now key : String) (fp : Option String)
    (s : ApplicationStatus) (er : Option ExecutionResult)
    (sd : Option (List (String × String))) (src : Option String) :
    ∃ u, update_database now key fp (some s) er sd src = Except.ok u ∧
      ((u.force_update.any fun kv => kv.1 = "applied_at") ↔ s = ApplicationStatus.APPLIED) ∧
      (s = ApplicationStatus.APPLIED →
        u.force_update =
          [("applicationStatus", "applied"), ("applied_at", now)] ++
            (match er with
             | some r => [("executionResult", r.value)]
             | none => [])) := by
  cases s <;> cases er <;>
    simp [update_database, ApplicationStatus.value, ExecutionResult.value]

-- ----------------------------------------------------------------------
-- C6: chain_enabled at the end of a run
-- ----------------------------------------------------------------------

/-- A chained state whose queue is about to drain. -/
def stDrain : JState := ⟨none, true, 0, none, false, false, false⟩

/-- C6 counterexample: when the queue drains mid-chain, `run_next_job`
returns the terminal `{success:true, reason:'all_jobs_completed'}` result
with `chain_enabled` still true — the drain path never resets it. -/
theorem drain_leaves_chain_enabled_true :
    (run_next_job envRNJ stDrain [none] []).2.2 = .ret ⟨true, "all_jobs_completed", none⟩ ∧
    (run_next_job envRNJ stDrain [none] []).1.chain_enabled = true :=
  ⟨rfl, rfl⟩

/-- C6 amended: an explicit stop request sets `chain_enabled` false (and
broadcasts `jobs_stopped`); the queue-drain return of `run_next_job`
leaves the whole orchestrator state — `chain_enabled` included —
unchanged. -/
theorem stop_clears_chain_enabled_drain_preserves :
    (∀ st : JState, (handle_stop_run_jobs st).1.chain_enabled = false ∧
      (handle_stop_run_jobs st).2.1 = [Event.broadcast "jobs_stopped"]) ∧
    (∀ (env : RNJEnv) (st : JState) (fetches : List (Option Job)) (opens : List Bool),
      st.is_automation_active = false →
      run_next_job env st (none :: fetches) opens =
        (st, [Event.fetch], .ret ⟨true, "all_jobs_completed", none⟩)) := by
  constructor
  · intro st; exact ⟨rfl, rfl⟩
  · intro env st fetches opens h
    simp [run_next_job, run_next_job_loop, h]

theorem stop_clears_chain_enabled_drain_preserves_witness :
    (⟨some sampleJob, true, 2, none, false, true, true⟩ : JState).is_automation_active = false ∧
    run_next_job envRNJ ⟨some sampleJob, true, 2, none, false, true, true⟩ [none] [] =
      (⟨some sampleJob, true, 2, none, false, true, true⟩, [Event.fetch],
       .ret ⟨true, "all_jobs_completed", none⟩) :=
  ⟨rfl, stop_clears_chain_enabled_drain_preserves.2 envRNJ _ [] [] rfl⟩

-- ----------------------------------------------------------------------
-- C7: per-platform watchdog duration
-- ----------------------------------------------------------------------

/-- C7 counterexample: the hostname of `https://x.workday.com/j` matches
no entry of `PLATFORM_TIMEOUTS` (the Workday patterns end-anchor on
`.myworkdayjobs.com` / `.myworkdaysite.com`), so the resolved watchdog
timeout is the 300 s default, not 480 s. -/
theorem workday_com_url_resolves_default_timeout :
    resolve_job_timeout (some "https://x.workday.com/j") = 300 ∧
    resolve_job_timeout (some "https://x.workday.com/j") ≠ 480 := by decide

/-- C7 amended: every claimed job gets a watchdog armed for
`resolve_job_timeout(applyUrl)`: the timeout of the first
`PLATFORM_TIMEOUTS` entry whose pattern matches the URL hostname, and the
300 s default when the URL is absent, empty, or unmatched.  Hosts under
`.myworkdayjobs.com` / `.myworkdaysite.com` / `.greenhouse.io` get 480 s,
`.lever.co` gets 360 s, and `x.workday.com` matches nothing, so that URL
resolves to 300 s. -/
theorem watchdog_timeout_first_match_or_default :
    (∀ (env : RNJEnv) (st : JState) (job : Job) (fetches : List (Option Job))
       (opens : List Bool),
      st.is_automation_active = false →
      Event.startTimer job.key (resolve_job_timeout job.applyUrl)
        ∈ (run_next_job env st (some job :: fetches) opens).2.1) ∧
    resolve_job_timeout none = DEFAULT_JOB_TIMEOUT ∧
    resolve_job_timeout (some "") = DEFAULT_JOB_TIMEOUT ∧
    DEFAULT_JOB_TIMEOUT = 300 ∧
    resolve_job_timeout (some "https://x.workday.com/j") = 300 ∧
    resolve_job_timeout (some "https://acme.myworkdayjobs.com/r/j1") = 480 ∧
    resolve_job_timeout (some "https://acme.myworkdaysite.com/j") = 480 ∧
    resolve_job_timeout (some "https://boards.greenhouse.io/x") = 480 ∧
    resolve_job_timeout (some "https://jobs.lever.co/x") = 360 ∧
    (∀ u : String,
      PLATFORM_TIMEOUTS.find? (fun pt => pt.1 (urlparse_hostname u)) = none →
      resolve_job_timeout (some u) = DEFAULT_JOB_TIMEOUT) := by
  refine ⟨?_, rfl, rfl, rfl, by decide, by decide, by decide, by decide, by decide, ?_⟩
  · intro env st job fetches opens h
    obtain ⟨jk, jurl⟩ := job
    simp only [run_next_job, run_next_job_loop, h]
    cases ht : st.execution_timer <;>
      simp only [cancel_execution_timeout, ht] <;>
        (repeat' split) <;>
          simp_all [List.mem_append]
  · intro u hu
    by_cases he : u.isEmpty <;> simp [resolve_job_timeout, he, hu]

theorem watchdog_timeout_first_match_or_default_witness :
    stDrain.is_automation_active = false ∧
    Event.startTimer "a" 480
      ∈ (run_next_job envRNJ stDrain [some sampleJob] [true]).2.1 :=
  ⟨rfl, by
    have := watchdog_timeout_first_match_or_default.1 envRNJ stDrain sampleJob [] [true] rfl
    simpa [sampleJob] using this⟩

-- ----------------------------------------------------------------------
-- C5: watchdog cancellation versus persistence
-- ----------------------------------------------------------------------

/-- An orphan-mode state that still has an armed watchdog. -/
def stOrphanTimer : JState := ⟨none, false, 0, some ("a", 300), true, false, false⟩

def envSil : SEREnv := ⟨.SILENT_STOP, "t0", none, none⟩

/-- C5 counterexample: in orphan mode (`chain_enabled` false) a `FAILED`
report proceeds to a store write while the armed watchdog is left
untouched — no cancellation happens before (or after) the persistence, so
the cancel-before-persist rule does not hold "in any mode". -/
theorem orphan_write_without_cancel :
    storeWrites (set_execution_result envSil stOrphanTimer .FAILED "a" none none none).events ≠ [] ∧
    Event.cancelTimer ∉ (set_execution_result envSil stOrphanTimer .FAILED "a" none none none).events ∧
    (set_execution_result envSil stOrphanTimer .FAILED "a" none none none).state.execution_timer
      = some ("a", 300) := by decide

lemma ser_persist_cancel_first (env : SEREnv) (st : JState) (result : ExecutionResult)
    (key : String) (fp : Option String) (sd : Option (List (String × String)))
    (src : Option String) (eft : Bool) (t : String × Nat)
    (ht : st.execution_timer = some t) :
    everyWritePrecededByCancel
      (ser_persist_and_continue env st result key fp sd src false eft).events = true := by
  unfold ser_persist_and_continue
  simp only [cancel_execution_timeout, ht, Bool.not_false, if_true]
  (repeat' split) <;>
    simp [ser_update_ui, ser_fatal, everyWritePrecededByCancel] <;>
      (repeat' split) <;> simp [everyWritePrecededByCancel]

/-- C5 amended: in a chained (non-orphan) call the armed watchdog is
cancelled before any persistence attempt — scanning the effect trace, no
store write precedes the cancellation; in orphan mode the cancellation is
skipped entirely (see the counterexample), so the rule holds only for the
active-chain mode. -/
theorem chained_cancel_precedes_writes (env : SEREnv) (st : JState)
    (result : ExecutionResult) (key : String) (fp : Option String)
    (sd : Option (List (String × String))) (src : Option String) (j : Job)
    (t : String × Nat) (hc : st.chain_enabled = true) (hj : st.current_job = some j)
    (ht : st.execution_timer = some t) :
    everyWritePrecededByCancel
      (set_execution_result env st result key fp sd src).events = true := by
  unfold set_execution_result
  simp only [hc, hj, Option.isNone_some, Bool.and_false, Bool.false_eq_true, if_false,
    Bool.not_true, Bool.and_true, Bool.true_and]
  (repeat' split) <;>
    first
    | simp [everyWritePrecededByCancel]
    | exact ser_persist_cancel_first env st result j.key fp sd src true t ht
    | exact ser_persist_cancel_first env st result j.key fp sd src false t ht
    | exact absurd trivial (by assumption)

theorem chained_cancel_precedes_writes_witness :
    chainState0.chain_enabled = true ∧ chainState0.current_job = some sampleJob ∧
    chainState0.execution_timer = some ("a", 480) ∧
    everyWritePrecededByCancel
      (set_execution_result envConc chainState0 .APPLIED "a" none none none).events = true :=
  ⟨rfl, rfl, rfl,
   chained_cancel_precedes_writes envConc chainState0 .APPLIED "a" none none none
     sampleJob ("a", 480) rfl rfl rfl⟩

-- ----------------------------------------------------------------------
-- C4: exception handling around finalization
-- ----------------------------------------------------------------------

/-- An inconsistent handoff: the chain flag is still up but no job is
held (e.g. after a watchdog fired and cleared `current_job`). -/
def stBadKey : JState := ⟨none, true, 0, none, true, false, false⟩

/-- C4 counterexample: the key re-derivation
`key = self.current_job["key"]` runs before the `try` block, so with
`chain_enabled` true and `current_job` `None` the `TypeError` propagates
to the caller instead of being turned into the structured
`fatal_error_setting_execution_result` result. -/
theorem set_execution_result_exception_propagates_before_try :
    (set_execution_result envConc stBadKey .APPLIED "k" none none none).outcome =
      .exn "TypeError: 'NoneType' object is not subscriptable" ∧
    ∀ v, (set_execution_result envConc stBadKey .APPLIED "k" none none none).outcome ≠
      .ret v := by
  refine ⟨rfl, fun v h => ?_⟩
  rw [show (set_execution_result envConc stBadKey .APPLIED "k" none none none).outcome =
      SEROutcome.exn "TypeError: 'NoneType' object is not subscriptable" from rfl] at h
  exact SEROutcome.noConfusion h

/-- C4 amended: exceptions raised inside the `try` block — here one thrown
by the UI/teardown collaborators after persistence — are caught: the call
returns `{success:false, reason:'fatal_error_setting_execution_result',
error}`, clears the global active flag and notifies exactly under
`ALERT_STOP`; but an exception raised before the `try` (re-deriving the
key from a missing `current_job`) propagates (see the counterexample). -/
theorem set_execution_result_fatal_catch_inside_try (env : SEREnv) (st : JState)
    (result : ExecutionResult) (key : String) (fp : Option String)
    (sd : Option (List (String × String))) (src : Option String) (j : Job) (e : String)
    (hui : env.uiError = some e) (hdb : env.dbError = none)
    (hc : st.chain_enabled = true) (hj : st.current_job = some j)
    (h1 : result ≠ .PENDING) (h2 : result ≠ .PROCESSING) :
    (set_execution_result env st result key fp sd src).outcome =
      .ret ⟨false, "fatal_error_setting_execution_result", some e⟩ ∧
    (set_execution_result env st result key fp sd src).state.is_automation_active = false ∧
    (Event.notify ∈ (set_execution_result env st result key fp sd src).events ↔
      env.fa = .ALERT_STOP) := by
  cases result <;>
    first
      | exact absurd rfl h1
      | exact absurd rfl h2
      | (cases ht : st.execution_timer <;>
          cases hfa : env.fa <;>
            simp [set_execution_result, ser_persist_and_continue, ser_update_ui, ser_fatal,
              cancel_execution_timeout, resultMapping, update_database, hc, hj, hui, hdb,
              ht, hfa])

theorem set_execution_result_fatal_catch_inside_try_witness :
    (⟨.ALERT_STOP, "t0", none, some "boom"⟩ : SEREnv).uiError = some "boom" ∧
    (set_execution_result ⟨.ALERT_STOP, "t0", none, some "boom"⟩ chainState0 .APPLIED "a"
        none none none).outcome =
      .ret ⟨false, "fatal_error_setting_execution_result", some "boom"⟩ :=
  ⟨rfl,
   (set_execution_result_fatal_catch_inside_try ⟨.ALERT_STOP, "t0", none, some "boom"⟩
      chainState0 .APPLIED "a" none none none sampleJob "boom" rfl rfl rfl rfl
      (by decide) (by decide)).1⟩

-- ----------------------------------------------------------------------
-- C2: the CONTINUE consecutive-failure ceiling
-- ----------------------------------------------------------------------

/-- C2 counterexample: starting from a fresh chain, the 6th consecutive
finalization failure (counter entering at 5) is still tolerated — the
call continues the chain and raises the counter to 6 — and only the 7th
consecutive failure halts with `{success:false}`. -/
theorem continue_ceiling_sixth_failure_continues :
    (failStep (consecutiveFailState 5)).outcome = .chain ∧
    (failStep (consecutiveFailState 5)).state.current_subsequent_execution_failure_count = 6 ∧
    (failStep (consecutiveFailState 6)).outcome =
      .ret ⟨false, "pending_not_allowed_for_active_chain", none⟩ :=
  ⟨by decide, by decide, by decide⟩

/-- C2 amended: under `FailureAction.CONTINUE`, a finalization failure of
`set_execution_result` (PENDING on the active chain, an invalid result
token, or a persistence failure) halts with `{success:false}` exactly when
the consecutive-failure counter already exceeds
`MAX_SUBSEQUENT_EXECUTION_FAILURES_ALLOWED` (5); with the counter at ≤ 5
the failure is tolerated: the chain continues and the counter is
incremented.  Hence the halt happens on the
`MAX_SUBSEQUENT_EXECUTION_FAILURES_ALLOWED + 2`-nd (7th) consecutive
failure, not the 6th.  A single intervening clean success resets the
counter to 0. -/
theorem continue_ceiling_halts_on_seventh_failure (env envD : SEREnv) (st : JState)
    (key : String) (fp : Option String) (sd : Option (List (String × String)))
    (src : Option String) (j : Job) (e : String)
    (hfa : env.fa = .CONTINUE) (hdb : env.dbError = none) (hui : env.uiError = none)
    (hfaD : envD.fa = .CONTINUE) (hdbD : envD.dbError = some e) (huiD : envD.uiError = none)
    (hc : st.chain_enabled = true) (hj : st.current_job = some j) :
    (MAX_SUBSEQUENT_EXECUTION_FAILURES_ALLOWED <
        st.current_subsequent_execution_failure_count →
      (set_execution_result env st .PENDING key fp sd src).outcome =
        .ret ⟨false, "pending_not_allowed_for_active_chain", none⟩ ∧
      (set_execution_result env st .PROCESSING key fp sd src).outcome =
        .ret ⟨false, "invalid_execution_result",
              some ("Error: " ++ ExecutionResult.PROCESSING.pyStr ++
                " is invalid execution result type enum.")⟩ ∧
      (set_execution_result envD st .FAILED key fp sd src).outcome =
        .ret ⟨false, "database_updation_failure", some e⟩) ∧
    (st.current_subsequent_execution_failure_count ≤
        MAX_SUBSEQUENT_EXECUTION_FAILURES_ALLOWED →
      ((set_execution_result env st .PENDING key fp sd src).outcome = .chain ∧
        (set_execution_result env st .PENDING key fp sd
            src).state.current_subsequent_execution_failure_count =
          st.current_subsequent_execution_failure_count + 1) ∧
      ((set_execution_result env st .PROCESSING key fp sd src).outcome = .chain ∧
        (set_execution_result env st .PROCESSING key fp sd
            src).state.current_subsequent_execution_failure_count =
          st.current_subsequent_execution_failure_count + 1) ∧
      ((set_execution_result envD st .FAILED key fp sd src).outcome = .chain ∧
        (set_execution_result envD st .FAILED key fp sd
            src).state.current_subsequent_execution_failure_count =
          st.current_subsequent_execution_failure_count + 1)) ∧
    ((set_execution_result env st .APPLIED key fp sd src).outcome = .chain ∧
      (set_execution_result env st .APPLIED key fp sd
          src).state.current_subsequent_execution_failure_count = 0) := by
  refine ⟨fun h => ?_, fun h => ?_, ?_⟩
  · refine ⟨?_, ?_, ?_⟩ <;>
      cases ht : st.execution_timer <;>
        simp [set_execution_result, ser_persist_and_continue, ser_update_ui, ser_fatal,
          cancel_execution_timeout, resultMapping, update_database, hc, hj, hfa, hdb, hui,
          hfaD, hdbD, huiD, ht, h]
  · refine ⟨⟨?_, ?_⟩, ⟨?_, ?_⟩, ⟨?_, ?_⟩⟩ <;>
      cases ht : st.execution_timer <;>
        simp [set_execution_result, ser_persist_and_continue, ser_update_ui, ser_fatal,
          cancel_execution_timeout, resultMapping, update_database, hc, hj, hfa, hdb, hui,
          hfaD, hdbD, huiD, ht, Nat.not_lt.mpr h]
  · refine ⟨?_, ?_⟩ <;>
      cases ht : st.execution_timer <;>
        simp [set_execution_result, ser_persist_and_continue, ser_update_ui, ser_fatal,
          cancel_execution_timeout, resultMapping, update_database, hc, hj, hfa, hdb, hui,
          ht]

theorem continue_ceiling_halts_on_seventh_failure_witness :
    chainState0.chain_enabled = true ∧
    chainState0.current_subsequent_execution_failure_count ≤
      MAX_SUBSEQUENT_EXECUTION_FAILURES_ALLOWED ∧
    (set_execution_result envConc chainState0 .PENDING "a" none none none).outcome = .chain ∧
    (set_execution_result envConc chainState0 .APPLIED "a" none none
        none).state.current_subsequent_execution_failure_count = 0 := by
  have h := continue_ceiling_halts_on_seventh_failure envConc
    ⟨.CONTINUE, "t0", some "db down", none⟩ chainState0 "a" none none none sampleJob
    "db down" rfl rfl rfl rfl rfl rfl rfl rfl
  exact ⟨rfl, by decide, (h.2.1 (by decide)).1.1, h.2.2.2⟩

-- ----------------------------------------------------------------------
-- C3: the watchdog timeout callback never persists anything
-- ----------------------------------------------------------------------

/-- C3 (code bug): the timeout callback's persistence attempt passes
`application_status=ApplicationStatus.FAILED`, but the
`ApplicationStatus` enum has no `FAILED` member, so the attempt raises
`AttributeError` before `update_database` runs and the `except` swallows
it: for every state and store behaviour the fired watchdog performs no
store write at all.  The rest of the documented behaviour does hold: the
callback never raises, releases the LLM and execution sessions, clears
`current_job`, and invokes `run_next_job` iff `chain_enabled` is true. -/
theorem on_timeout_never_writes_store (now : String) (dbError : Option String)
    (st : JState) (job_key : String) :
    storeWrites (on_timeout now dbError st job_key).2.1 = [] ∧
    (on_timeout now dbError st job_key).2.1 =
      [Event.closeLlmSession, Event.closeAutomationSession] ∧
    (on_timeout now dbError st job_key).1.current_job = none ∧
    (on_timeout now dbError st job_key).1.is_automation_active = false ∧
    (on_timeout now dbError st job_key).2.2 = st.chain_enabled ∧
    (∃ msg, applicationStatusAttr "FAILED" = Except.error msg) := by
  cases dbError <;>
    simp [on_timeout, applicationStatusAttr, storeWrites, bind, Except.bind]

-- ----------------------------------------------------------------------
-- C1: the result → store mapping
-- ----------------------------------------------------------------------

lemma update_database_force_payload (now key : String) (fp : Option String)
    (as : Option ApplicationStatus) (er : ExecutionResult)
    (sd : Option (List (String × String))) (src : Option String) (u : UpsertCall)
    (h : update_database now key fp as (some er) sd src = Except.ok u) :
    u.force_update = forcePayload now (some er, as) := by
  cases as with
  | none =>
    simp [update_database] at h
    simp [← h, forcePayload]
  | some s =>
    cases s <;> simp [update_database] at h <;> simp [← h, forcePayload]

lemma storeWrites_append (a b : List Event) :
    storeWrites (a ++ b) = storeWrites a ++ storeWrites b := by
  simp [storeWrites, List.filterMap_append]

lemma storeWrites_ser_fatal (env : SEREnv) (st : JState) (evs : List Event) (e : String) :
    storeWrites (ser_fatal env st evs e).events = storeWrites evs := by
  unfold ser_fatal
  split <;> simp [storeWrites_append, storeWrites]

lemma storeWrites_ser_update_ui (env : SEREnv) (st : JState) (evs : List Event)
    (o eft : Bool) :
    storeWrites (ser_update_ui env st evs o eft).events = storeWrites evs := by
  unfold ser_update_ui
  (repeat' split) <;>
    first
    | rw [storeWrites_ser_fatal]
    | (simp only [SER.events] <;>
        (repeat' split) <;>
          simp [storeWrites_append, storeWrites])

lemma ser_persist_writes (env : SEREnv) (st : JState) (result : ExecutionResult)
    (key : String) (fp : Option String) (sd : Option (List (String × String)))
    (src : Option String) (o eft : Bool) :
    ∀ u ∈ storeWrites (ser_persist_and_continue env st result key fp sd src o eft).events,
      u.force_update = forcePayload env.now (resultMapping result) := by
  intro u hu
  rcases hm : resultMapping result with ⟨er?, as?⟩
  cases er? with
  | none =>
    cases o <;> cases ht : st.execution_timer <;>
      simp only [ser_persist_and_continue, cancel_execution_timeout, ht, hm, Bool.not_true,
        Bool.not_false, if_true, if_false, Bool.false_eq_true] at hu <;>
      revert hu <;>
        (repeat' split) <;>
          intro hu <;>
            (try rw [storeWrites_ser_update_ui] at hu) <;>
            simp [storeWrites] at hu
  | some er =>
    cases hud : update_database env.now key fp as? (some er) sd src with
    | error e =>
      cases o <;> cases ht : st.execution_timer <;>
        simp only [ser_persist_and_continue, cancel_execution_timeout, ht, hm, hud,
          Bool.not_true, Bool.not_false, if_true, if_false, Bool.false_eq_true] at hu <;>
        rw [storeWrites_ser_fatal] at hu <;>
        simp [storeWrites] at hu
    | ok u' =>
      cases hdbe : env.dbError with
      | some err =>
        cases o <;> cases ht : st.execution_timer <;>
          simp only [ser_persist_and_continue, cancel_execution_timeout, ht, hm, hud, hdbe,
            Bool.not_true, Bool.not_false, if_true, if_false, Bool.false_eq_true] at hu <;>
          revert hu <;>
            (repeat' split) <;>
              intro hu <;>
                (try rw [storeWrites_ser_update_ui] at hu) <;>
                simp [storeWrites] at hu
      | none =>
        cases o <;> cases ht : st.execution_timer <;>
          simp only [ser_persist_and_continue, cancel_execution_timeout, ht, hm, hud, hdbe,
            Bool.not_true, Bool.not_false, if_true, if_false, Bool.false_eq_true] at hu <;>
          rw [storeWrites_ser_update_ui] at hu <;>
          simp [storeWrites_append, storeWrites] at hu <;>
          first
          | exact update_database_force_payload env.now key fp as? er sd src _ hud
          | (subst hu
             exact update_database_force_payload env.now key fp as? er sd src _ hud)

lemma set_execution_result_writes (env : SEREnv) (st : JState) (result : ExecutionResult)
    (key : String) (fp : Option String) (sd : Option (List (String × String)))
    (src : Option String) :
    ∀ u ∈ storeWrites (set_execution_result env st result key fp sd src).events,
      u.force_update = forcePayload env.now (resultMapping result) := by
  intro u hu
  by_cases hp : result = ExecutionResult.PENDING
  · subst hp
    cases hce : st.chain_enabled with
    | false =>
      simp [set_execution_result, hce, storeWrites] at hu
    | true =>
      cases hcj : st.current_job with
      | none =>
        simp [set_execution_result, hce, hcj, storeWrites] at hu
      | some j =>
        simp [set_execution_result, hce, hcj] at hu
        revert hu
        (repeat' split) <;>
          intro hu <;>
            first
            | exact ser_persist_writes env st .PENDING j.key fp sd src false true u hu
            | exact absurd hu (by simp [storeWrites])
  · cases hce : st.chain_enabled with
    | false =>
      simp [set_execution_result, hce, hp] at hu
      exact ser_persist_writes env st result key fp sd src true false u hu
    | true =>
      cases hcj : st.current_job with
      | none =>
        simp [set_execution_result, hce, hcj, storeWrites] at hu
      | some j =>
        simp [set_execution_result, hce, hcj, hp] at hu
        exact ser_persist_writes env st result j.key fp sd src false false u hu

lemma set_execution_result_chained_nonpending (env : SEREnv) (st : JState)
    (result : ExecutionResult) (key : String) (fp : Option String)
    (sd : Option (List (String × String))) (src : Option String) (j : Job)
    (hc : st.chain_enabled = true) (hj : st.current_job = some j)
    (h1 : result ≠ .PENDING) :
    set_execution_result env st result key fp sd src =
      ser_persist_and_continue env st result j.key fp sd src false false := by
  simp [set_execution_result, hc, hj, h1]

lemma ser_persist_processing_no_write (env : SEREnv) (st : JState) (key : String)
    (fp : Option String) (sd : Option (List (String × String))) (src : Option String)
    (o eft : Bool) :
    storeWrites
      (ser_persist_and_continue env st .PROCESSING key fp sd src o eft).events = [] := by
  have hm : resultMapping ExecutionResult.PROCESSING = (none, none) := rfl
  cases o <;> cases ht : st.execution_timer <;>
    simp only [ser_persist_and_continue, cancel_execution_timeout, ht, hm, Bool.not_true,
      Bool.not_false, if_true, if_false, Bool.false_eq_true] <;>
    (repeat' split) <;>
      first
      | (rw [storeWrites_ser_update_ui]; simp [storeWrites])
      | simp [storeWrites]

lemma ser_persist_processing_not_success (env : SEREnv) (st : JState) (key : String)
    (fp : Option String) (sd : Option (List (String × String))) (src : Option String)
    (eft : Bool) (hc : st.chain_enabled = true) :
    ∀ v, (ser_persist_and_continue env st .PROCESSING key fp sd src false eft).outcome =
        .ret v → v.success = false := by
  intro v hv
  have hm : resultMapping ExecutionResult.PROCESSING = (none, none) := rfl
  cases ht : st.execution_timer <;>
    simp only [ser_persist_and_continue, ser_update_ui, ser_fatal, cancel_execution_timeout,
      ht, hm, Bool.not_false, if_true, Bool.false_eq_true] at hv <;>
    revert hv <;>
      (repeat' split) <;>
        intro hv <;>
          first
          | (cases hv; rfl)
          | simp_all [hc]

/-- C1: the result → store-write mapping of `set_execution_result` holds
exactly: the mapping table sends PENDING to a persisted `FAILED` (status
untouched), JOB_EXPIRED to `JOB_EXPIRED`/`JOB_EXPIRED`,
UNSUPPORTED_PLATFORM to `UNSUPPORTED_PLATFORM` (status untouched), FAILED
to `FAILED` (status untouched), APPLIED to `APPLIED`/`APPLIED`; every
store write any call performs carries exactly the mapped force payload;
and the remaining token PROCESSING is invalid input: it is never written
to the store and, on an active chain, never yields a success result. -/
theorem set_execution_result_result_mapping (env : SEREnv) (st : JState)
    (result : ExecutionResult) (key : String) (fp : Option String)
    (sd : Option (List (String × String))) (src : Option String) (j : Job)
    (hc : st.chain_enabled = true) (hj : st.current_job = some j) :
    resultMapping .PENDING = (some .FAILED, none) ∧
    resultMapping .JOB_EXPIRED = (some .JOB_EXPIRED, some .JOB_EXPIRED) ∧
    resultMapping .UNSUPPORTED_PLATFORM = (some .UNSUPPORTED_PLATFORM, none) ∧
    resultMapping .FAILED = (some .FAILED, none) ∧
    resultMapping .APPLIED = (some .APPLIED, some .APPLIED) ∧
    resultMapping .PROCESSING = (none, none) ∧
    (∀ u ∈ storeWrites (set_execution_result env st result key fp sd src).events,
      u.force_update = forcePayload env.now (resultMapping result)) ∧
    storeWrites (set_execution_result env st .PROCESSING key fp sd src).events = [] ∧
    (∀ v, (set_execution_result env st .PROCESSING key fp sd src).outcome = .ret v →
      v.success = false) := by
  refine ⟨rfl, rfl, rfl, rfl, rfl, rfl,
    set_execution_result_writes env st result key fp sd src, ?_, ?_⟩
  · rw [set_execution_result_chained_nonpending env st .PROCESSING key fp sd src j hc hj
      (by decide)]
    exact ser_persist_processing_no_write env st j.key fp sd src false false
  · rw [set_execution_result_chained_nonpending env st .PROCESSING key fp sd src j hc hj
      (by decide)]
    exact ser_persist_processing_not_success env st j.key fp sd src false hc

theorem set_execution_result_result_mapping_witness :
    chainState0.chain_enabled = true ∧ chainState0.current_job = some sampleJob ∧
    (∀ u ∈ storeWrites (set_execution_result envConc chainState0 .APPLIED "a" none none
        none).events,
      u.force_update = forcePayload envConc.now (resultMapping .APPLIED)) ∧
    storeWrites (set_execution_result envConc chainState0 .PROCESSING "a" none none
        none).events = [] :=
  ⟨rfl, rfl,
   (set_execution_result_result_mapping envConc chainState0 .APPLIED "a" none none none
      sampleJob rfl rfl).2.2.2.2.2.2.1,
   (set_execution_result_result_mapping envConc chainState0 .APPLIED "a" none none none
      sampleJob rfl rfl).2.2.2.2.2.2.2.1⟩

theorem update_database_applied_at_iff_applied_witness :
    ∃ u, update_database "2026-01-01T00:00:00.000Z" "a" none (some .APPLIED)
        (some .APPLIED) none none = Except.ok u ∧
      ((u.force_update.any fun kv => kv.1 = "applied_at") ↔
        ApplicationStatus.APPLIED = ApplicationStatus.APPLIED) ∧
      (ApplicationStatus.APPLIED = ApplicationStatus.APPLIED →
        u.force_update =
          [("applicationStatus", "applied"), ("applied_at", "2026-01-01T00:00:00.000Z")] ++
            (match (some ExecutionResult.APPLIED : Option ExecutionResult) with
             | some r => [("executionResult", r.value)]
             | none => [])) :=
  update_database_applied_at_iff_applied "2026-01-01T00:00:00.000Z" "a" none .APPLIED
    (some .APPLIED) none none
